import Mathlib

/-
Verification of the echo-timing core of the stm32-hcsr04-ultrasonic
repository (src/main.c, function measure_distance_cm).

Shallow embedding:
- All 32-bit register values are Nat with explicit reduction modulo 2^32
  (U32) where C unsigned arithmetic could wrap.
- The hardware timer is split into
  (a) TimerState: the register state the code writes (CC2IF flag, CC2P
      polarity bit, CNT, CCR2) that could carry over between cycles, and
  (b) PhaseTrace / Env: the injected behaviour of the outside world during
      one wait phase - whether a capture event has been latched by poll
      iteration i (event), the live counter value observed at poll i (cnt),
      and the value latched in CCR2 (ccr2).
- The two C polling loops
      timeout = 50000;
      while (!(TIM2_SR & (1 << 2)) && --timeout) {
          if (TIM2_CNT > BOUND) return 0xFFFF;
      }
      if (timeout == 0) return 0xFFFF;
  are both instances of waitLoop: the flag is polled at iterations
  0 .. 49999; after an unsuccessful poll the timeout counter is
  pre-decremented and, when it is still nonzero, the CNT guard is checked
  (so CNT is read at iterations 0 .. 49998).
- delay_us / the GPIOA trigger pulse do not touch the timer registers and
  are not modelled.
-/

namespace HCSR04

/-- 2^32, the modulus of C `uint32_t` arithmetic. -/
def U32 : Nat := 4294967296

/-- 32-bit unsigned subtraction `a - b` (wraps modulo 2^32). -/
def sub32 (a b : Nat) : Nat := (a % U32 + U32 - b % U32) % U32

/-- Pulse-width computation of src/main.c lines 150-157:
`end_time >= start_time ? end_time - start_time
                        : (0xFFFF - start_time) + end_time + 1`,
with the C unsigned wraparound made explicit. -/
def pulse_width (start_time end_time : Nat) : Nat :=
  if end_time ≥ start_time then end_time - start_time
  else (sub32 0xFFFF start_time + end_time + 1) % U32

/-- Distance conversion of src/main.c line 166:
`uint32_t distance_cm = (pulse_width * 343) / 4000;`
(the product is a `uint32_t`, hence the reduction modulo 2^32). -/
def distance_cm (pw : Nat) : Nat := pw * 343 % U32 / 4000

/-- The injected outside-world behaviour during one wait phase:
`event i` says whether a capture event has been latched (CC2IF set) when the
flag is polled for the i-th time, `cnt i` is the live TIM2_CNT value read at
the i-th iteration, and `ccr2` is the value latched in TIM2_CCR2 for this
phase's capture. -/
structure PhaseTrace where
  event : Nat → Bool
  cnt : Nat → Nat
  ccr2 : Nat

/-- The injected behaviour for a whole cycle: the rising-edge wait phase and
the falling-edge wait phase. -/
structure Env where
  rising : PhaseTrace
  falling : PhaseTrace

/-- The timer-register state the code mutates, which is the only state that
could persist from one measurement cycle to the next: the CC2IF capture
flag, the CC2P polarity bit (false = rising, true = falling), the counter
and the capture register. -/
structure TimerState where
  cc2if : Bool
  cc2p : Bool
  cnt : Nat
  ccr2 : Nat

/-- One C polling wait (src/main.c lines 115-124 with bound 60000, and
lines 134-143 with bound 30000). `pending` is the CC2IF value on entry (the
code clears it before each wait); the observed flag at poll i is
`pending || event i`. `fuel` is the current value of the C `timeout`
variable, `i` the poll iteration index. Returns `some i` when the flag is
seen set at poll i, `none` on either timeout guard (the iteration counter
reaching zero, or the CNT guard `TIM2_CNT > bound`). -/
def waitLoop (pending : Bool) (event : Nat → Bool) (cnt : Nat → Nat)
    (bound : Nat) : Nat → Nat → Option Nat
  | 0, _ => none
  | fuel + 1, i =>
    if pending || event i then some i
    else if fuel = 0 then none
    else if bound < cnt i % U32 then none
    else waitLoop pending event cnt bound fuel (i + 1)

/-- The measurement cycle `measure_distance_cm` of src/main.c lines 96-172,
as a function of the incoming timer-register state and the injected traces.
Returns the `uint32_t` result (0xFFFF on either timeout) together with the
outgoing timer-register state. -/
def measureSt (s : TimerState) (env : Env) : Nat × TimerState :=
  -- TIM2_SR &= ~(1 << 2); TIM2_CNT = 0; TIM2_CCER &= ~(1 << 5)
  let armed : TimerState := { s with cc2if := false, cnt := 0, cc2p := false }
  -- trigger pulse on PA0 (no effect on the timer model)
  match waitLoop armed.cc2if env.rising.event env.rising.cnt 60000 50000 0 with
  | none => (0xFFFF, armed)
  | some i =>
    -- start_time = TIM2_CCR2; TIM2_SR &= ~(1 << 2)
    let start_time := env.rising.ccr2 % U32
    let captured1 : TimerState :=
      { armed with ccr2 := start_time, cnt := env.rising.cnt i % U32, cc2if := false }
    -- TIM2_CCER |= (1 << 5)
    let armed2 : TimerState := { captured1 with cc2p := true }
    match waitLoop armed2.cc2if env.falling.event env.falling.cnt 30000 50000 0 with
    | none => (0xFFFF, armed2)
    | some j =>
      -- end_time = TIM2_CCR2; TIM2_SR &= ~(1 << 2)
      let end_time := env.falling.ccr2 % U32
      let captured2 : TimerState :=
        { armed2 with ccr2 := end_time, cnt := env.falling.cnt j % U32, cc2if := false }
      (distance_cm (pulse_width start_time end_time), captured2)

/-! ### Helper lemmas about the wait loop -/

/-- A wait whose phase never latches a capture event at any polled iteration
times out, whichever of the two guards fires first. -/
theorem waitLoop_none_of_no_event (event : Nat → Bool) (cnt : Nat → Nat)
    (bound : Nat) :
    ∀ fuel i, (∀ j, i ≤ j → j < i + fuel → event j = false) →
      waitLoop false event cnt bound fuel i = none := by
  intro fuel
  induction fuel with
  | zero => intro i _; rfl
  | succ t ih =>
    intro i h
    have he : event i = false := h i (Nat.le_refl i) (by omega)
    rw [waitLoop]
    simp only [he, Bool.or_false, if_false, Bool.false_eq_true, if_neg]
    by_cases ht : t = 0
    · simp [ht]
    · simp only [ht, if_false]
      by_cases hc : bound < cnt i % U32
      · simp [hc]
      · simp only [hc, if_false]
        exact ih (i + 1) (fun j hj1 hj2 => h j (by omega) (by omega))

/-- If a capture event is latched by poll `i + j` with `j` inside the
iteration budget, and the CNT guard does not fire at any earlier polled
iteration, the wait succeeds. -/
theorem waitLoop_some_of_event (event : Nat → Bool) (cnt : Nat → Nat)
    (bound : Nat) :
    ∀ fuel i j, j < fuel → event (i + j) = true →
      (∀ k, k < j → cnt (i + k) % U32 ≤ bound) →
      ∃ m, waitLoop false event cnt bound fuel i = some m := by
  intro fuel
  induction fuel with
  | zero => intro i j hj; omega
  | succ t ih =>
    intro i j hj hev hcnt
    by_cases he : event i = true
    · refine ⟨i, ?_⟩
      rw [waitLoop]
      simp [he]
    · have hef : event i = false := by
        cases hvi : event i
        · rfl
        · exact absurd hvi he
      have hj0 : j ≠ 0 := by
        intro h0
        rw [h0, Nat.add_zero] at hev
        exact he hev
      obtain ⟨j1, rfl⟩ := Nat.exists_eq_succ_of_ne_zero hj0
      have ht : t ≠ 0 := by omega
      have hc : ¬ bound < cnt i % U32 := by
        have := hcnt 0 (by omega)
        rw [Nat.add_zero] at this
        omega
      rw [waitLoop]
      simp only [hef, Bool.or_false, Bool.false_eq_true, if_false, ht, hc]
      refine ih (i + 1) j1 (by omega) ?_ ?_
      · have e1 : i + 1 + j1 = i + (j1 + 1) := by omega
        rw [e1]; exact hev
      · intro k hk
        have e2 : i + 1 + k = i + (k + 1) := by omega
        rw [e2]
        exact hcnt (k + 1) (by omega)

/-! ### Helper lemmas about the measurement cycle -/

/-- When the rising-edge wait times out, the cycle returns the 0xFFFF error
sentinel. -/
theorem measureSt_fst_of_rising_none (s : TimerState) (env : Env)
    (h : waitLoop false env.rising.event env.rising.cnt 60000 50000 0 = none) :
    (measureSt s env).fst = 0xFFFF := by
  simp [measureSt, h]

/-- When the rising-edge wait succeeds but the falling-edge wait times out,
the cycle returns the 0xFFFF error sentinel. -/
theorem measureSt_fst_of_falling_none (s : TimerState) (env : Env) (i : Nat)
    (h1 : waitLoop false env.rising.event env.rising.cnt 60000 50000 0 = some i)
    (h2 : waitLoop false env.falling.event env.falling.cnt 30000 50000 0 = none) :
    (measureSt s env).fst = 0xFFFF := by
  simp [measureSt, h1, h2]

/-- When both waits succeed, the cycle returns the converted distance of the
wraparound-corrected pulse width of the two latched capture values. -/
theorem measureSt_fst_of_success (s : TimerState) (env : Env) (i j : Nat)
    (h1 : waitLoop false env.rising.event env.rising.cnt 60000 50000 0 = some i)
    (h2 : waitLoop false env.falling.event env.falling.cnt 30000 50000 0 = some j) :
    (measureSt s env).fst =
      distance_cm (pulse_width (env.rising.ccr2 % U32) (env.falling.ccr2 % U32)) := by
  simp [measureSt, h1, h2]

/-- The result of a cycle does not depend on the incoming timer-register
state: the cycle clears the capture flag, resets the counter and re-arms the
polarity before its first wait. -/
theorem measureSt_fst_state_irrelevant (s t : TimerState) (env : Env) :
    (measureSt s env).fst = (measureSt t env).fst := by
  unfold measureSt
  cases h1 : waitLoop false env.rising.event env.rising.cnt 60000 50000 0 with
  | none => simp [h1]
  | some i =>
    cases h2 : waitLoop false env.falling.event env.falling.cnt 30000 50000 0 with
    | none => simp [h1, h2]
    | some j => simp [h1, h2]

/-! ### Arithmetic helper lemmas -/

/-- For a subtrahend in the counter range, the 32-bit subtraction
`0xFFFF - start_time` does not wrap. -/
theorem sub32_ffff (s : Nat) (h : s ≤ 0xFFFF) : sub32 0xFFFF s = 0xFFFF - s := by
  unfold sub32 U32
  have hs : s % 4294967296 = s := Nat.mod_eq_of_lt (by omega)
  rw [hs]
  have h1 : 0xFFFF % 4294967296 = 0xFFFF := by norm_num
  rw [h1]
  have h2 : (0xFFFF : Nat) + 4294967296 - s = (0xFFFF - s) + 4294967296 := by omega
  rw [h2, Nat.add_mod_right]
  exact Nat.mod_eq_of_lt (by omega)

/-- Wraparound branch of the pulse-width computation, for capture values in
the counter range. -/
theorem pulse_width_wrap_eq (s e : Nat) (h1 : e < s) (h2 : s ≤ 0xFFFF) :
    pulse_width s e = (0xFFFF - s) + e + 1 := by
  unfold pulse_width
  rw [if_neg (by omega)]
  rw [sub32_ffff s h2]
  have hlt : (0xFFFF - s) + e + 1 < U32 := by unfold U32; omega
  exact Nat.mod_eq_of_lt hlt

/-- The pulse width of two capture values in the counter range is itself in
the counter range. -/
theorem pulse_width_le (s e : Nat) (h1 : s ≤ 0xFFFF) (h2 : e ≤ 0xFFFF) :
    pulse_width s e ≤ 0xFFFF := by
  by_cases h : e ≥ s
  · unfold pulse_width
    rw [if_pos h]
    omega
  · rw [pulse_width_wrap_eq s e (by omega) h1]
    omega

/-- For a pulse width in the counter range the 32-bit product does not wrap,
so the distance is the plain integer quotient. -/
theorem distance_cm_eq (pw : Nat) (h : pw ≤ 0xFFFF) :
    distance_cm pw = pw * 343 / 4000 := by
  unfold distance_cm
  have hlt : pw * 343 < U32 := by
    unfold U32
    have : pw * 343 ≤ 0xFFFF * 343 := Nat.mul_le_mul_right 343 h
    omega
  rw [Nat.mod_eq_of_lt hlt]

/-- For a pulse width in the counter range the distance is at most 5619 cm. -/
theorem distance_cm_le (pw : Nat) (h : pw ≤ 0xFFFF) : distance_cm pw ≤ 5619 := by
  rw [distance_cm_eq pw h]
  have h1 : pw * 343 ≤ 22478505 := by
    have : pw * 343 ≤ 0xFFFF * 343 := Nat.mul_le_mul_right 343 h
    omega
  calc pw * 343 / 4000 ≤ 22478505 / 4000 := Nat.div_le_div_right h1
    _ = 5619 := by norm_num

/-! ### Concrete states and traces used as test vectors -/

/-- A quiescent incoming timer state. -/
def st0 : TimerState := { cc2if := false, cc2p := false, cnt := 0, ccr2 := 0 }

/-- A stale incoming timer state: pending capture flag, falling polarity,
nonzero counter and a leftover capture value, as left behind by an earlier
cycle. -/
def stStale : TimerState := { cc2if := true, cc2p := true, cnt := 54321, ccr2 := 60000 }

/-- A cycle in which both edges are captured immediately, with latched
capture values 100 (rising) and 588 (falling): the worked example of the
specification. -/
def envOk : Env :=
  { rising := { event := fun _ => true, cnt := fun _ => 100, ccr2 := 100 },
    falling := { event := fun _ => true, cnt := fun _ => 700, ccr2 := 588 } }

/-- A cycle in which the rising edge is captured at once at counter value
25000, and the falling edge is latched from the second poll onwards at
counter value 50000 (25000 ticks after the rising capture, inside the
30000-tick maximum echo duration), but the live counter observed while
polling is already past 30000. -/
def envLateRise : Env :=
  { rising := { event := fun _ => true, cnt := fun _ => 25000, ccr2 := 25000 },
    falling := { event := fun i => decide (1 ≤ i), cnt := fun _ => 31000, ccr2 := 50000 } }

/-- A cycle in which no rising-edge capture event ever occurs. -/
def envNoRise : Env :=
  { rising := { event := fun _ => false, cnt := fun _ => 0, ccr2 := 4242 },
    falling := { event := fun _ => true, cnt := fun _ => 0, ccr2 := 0 } }

/-- A cycle in which the rising edge is captured at once but no falling-edge
capture event ever occurs, the CNT guard firing on the first falling poll. -/
def envNoFall : Env :=
  { rising := { event := fun _ => true, cnt := fun _ => 50, ccr2 := 1000 },
    falling := { event := fun _ => false, cnt := fun _ => 40000, ccr2 := 0 } }

/-- A cycle in which no rising-edge capture event ever occurs and the CNT
guard fires on the first rising poll. -/
def envDead : Env :=
  { rising := { event := fun _ => false, cnt := fun _ => 61000, ccr2 := 0 },
    falling := { event := fun _ => true, cnt := fun _ => 0, ccr2 := 0 } }

/-! ### Claim theorems -/

/-- Claim C1: for every pair of captured timer values with
`end_time >= start_time`, the computed pulse width equals
`end_time - start_time`. -/
theorem pulse_width_no_wrap (start_time end_time : Nat)
    (h : end_time ≥ start_time) :
    pulse_width start_time end_time = end_time - start_time := by
  unfold pulse_width
  rw [if_pos h]

/-- Witness for C1 at the spec's worked example values 100 and 588. -/
theorem pulse_width_no_wrap_witness : pulse_width 100 588 = 588 - 100 :=
  pulse_width_no_wrap 100 588 (by decide)

/-- Claim C2: for captured timer values with `end_time < start_time`
(exactly one counter wraparound), the computed pulse width equals
`(TICK_MAX - start_time) + end_time + 1` with `TICK_MAX = 0xFFFF = 65535`. -/
theorem pulse_width_wraparound (start_time end_time : Nat)
    (h1 : end_time < start_time) (h2 : start_time ≤ 0xFFFF) :
    pulse_width start_time end_time = (0xFFFF - start_time) + end_time + 1 :=
  pulse_width_wrap_eq start_time end_time h1 h2

/-- Witness for C2 at the spec's wraparound example: start 65500, end 40
give pulse width 76. -/
theorem pulse_width_wraparound_witness : pulse_width 65500 40 = 76 := by
  rw [pulse_width_wraparound 65500 40 (by decide) (by decide)]

/-- Claim C7: for all captured values in `[0, 65535]` the computed pulse
width is a non-negative integer in `[0, 65535]`, whichever branch of the
wraparound-corrected formula is taken. -/
theorem pulse_width_in_range (start_time end_time : Nat)
    (h1 : start_time ≤ 0xFFFF) (h2 : end_time ≤ 0xFFFF) :
    0 ≤ pulse_width start_time end_time ∧
      pulse_width start_time end_time ≤ 65535 :=
  ⟨Nat.zero_le _, pulse_width_le start_time end_time h1 h2⟩

/-- Witness for C7 at the wraparound corner 65500 / 40. -/
theorem pulse_width_in_range_witness :
    0 ≤ pulse_width 65500 40 ∧ pulse_width 65500 40 ≤ 65535 :=
  pulse_width_in_range 65500 40 (by decide) (by decide)

/-- Claim C9: for the fixed conversion constants, the computed distance is
monotonically non-decreasing in the pulse width over the in-range pulse
widths. -/
theorem distance_cm_monotone (p1 p2 : Nat) (h1 : p1 ≤ p2) (h2 : p2 ≤ 65535) :
    distance_cm p1 ≤ distance_cm p2 := by
  rw [distance_cm_eq p1 (by omega), distance_cm_eq p2 (by omega)]
  exact Nat.div_le_div_right (Nat.mul_le_mul_right 343 h1)

/-- Witness for C9 at pulse widths 76 and 488. -/
theorem distance_cm_monotone_witness : distance_cm 76 ≤ distance_cm 488 :=
  distance_cm_monotone 76 488 (by decide) (by decide)

/-- Claim C4: a cycle in which no rising-edge capture event occurs at any of
the polled iterations inside the timeout budget returns the 0xFFFF error
value. The incoming timer state `s`, both counter traces and both latched
capture values `ccr2` are universally quantified, so the result is in
particular independent of the contents of the capture register, which the
error path never reads; only polls `i < 50000` are constrained, so nothing
past the iteration bound influences the result. -/
theorem measure_no_rising_edge (s : TimerState) (env : Env)
    (h : ∀ i, i < 50000 → env.rising.event i = false) :
    (measureSt s env).fst = 0xFFFF :=
  measureSt_fst_of_rising_none s env
    (waitLoop_none_of_no_event _ _ _ 50000 0 (fun j _ hj2 => h j (by omega)))

/-- Witness for C4: a trace with no rising capture event at all yields
0xFFFF. -/
theorem measure_no_rising_edge_witness : (measureSt st0 envNoRise).fst = 0xFFFF :=
  measure_no_rising_edge st0 envNoRise (fun _ _ => rfl)

/-- Counterexample refuting C5 as stated: a cycle that sees a rising edge
but no falling edge (envNoFall) and a cycle that never sees a rising edge
(envDead) return the very same value 0xFFFF, so the falling-edge failure is
not a failure value of a kind distinct from the no-rising-edge failure. -/
theorem measure_error_kinds_indistinct :
    (measureSt st0 envNoFall).fst = 0xFFFF ∧
    (measureSt st0 envDead).fst = 0xFFFF ∧
    (measureSt st0 envNoFall).fst = (measureSt st0 envDead).fst :=
  ⟨rfl, rfl, rfl⟩

/-- Claim C5 as amended: a cycle that captures a rising edge but in which no
falling-edge capture event occurs within the falling-edge timeout bound
returns the 0xFFFF error value - the same sentinel the no-rising-edge path
returns, the code surfacing no distinct error kind. -/
theorem measure_no_falling_edge_sentinel (s : TimerState) (env : Env) (i : Nat)
    (h1 : waitLoop false env.rising.event env.rising.cnt 60000 50000 0 = some i)
    (h2 : ∀ j, j < 50000 → env.falling.event j = false) :
    (measureSt s env).fst = 0xFFFF :=
  measureSt_fst_of_falling_none s env i h1
    (waitLoop_none_of_no_event _ _ _ 50000 0 (fun j _ hj2 => h2 j (by omega)))

/-- Witness for the amended C5: rising edge captured at once, falling edge
never latched. -/
theorem measure_no_falling_edge_sentinel_witness :
    (measureSt st0 envNoFall).fst = 0xFFFF :=
  measure_no_falling_edge_sentinel st0 envNoFall 0 rfl (fun _ _ => rfl)

/-- Claim C10: two consecutive successful cycles with identical injected
capture traces produce identical results: the second cycle starts from
whatever timer-register state the first one left behind, and still returns
the same distance, because each cycle clears the capture flag, resets the
counter and re-arms the polarity before its first wait. -/
theorem measure_consecutive_idempotent (s : TimerState) (env : Env)
    (h : (measureSt s env).fst ≠ 0xFFFF) :
    (measureSt (measureSt s env).snd env).fst = (measureSt s env).fst :=
  measureSt_fst_state_irrelevant (measureSt s env).snd s env

/-- Witness for C10: starting from a stale timer state (pending flag,
falling polarity, nonzero counter), a successful cycle and its successor
over the same traces agree. -/
theorem measure_consecutive_idempotent_witness :
    (measureSt (measureSt stStale envOk).snd envOk).fst =
      (measureSt stStale envOk).fst :=
  measure_consecutive_idempotent stStale envOk (by decide)

/-- Counterexample refuting C3 as stated: in envLateRise the rising edge is
captured within its bound (at once, counter value 25000), a falling-edge
capture event does occur (from poll 1 on) and its latched time 50000 is
within 30000 ticks of the rising capture at 25000, yet the cycle returns the
0xFFFF error value: the falling-edge CNT guard compares against ticks since
the cycle-start counter reset, not against ticks since the rising capture,
and the live counter is already past 30000 while polling. -/
theorem measure_c3_refuted :
    waitLoop false envLateRise.rising.event envLateRise.rising.cnt
        60000 50000 0 = some 0 ∧
    envLateRise.falling.event 1 = true ∧
    envLateRise.falling.ccr2 ≤ envLateRise.rising.ccr2 + 30000 ∧
    (measureSt st0 envLateRise).fst = 0xFFFF :=
  ⟨rfl, rfl, by decide, rfl⟩

/-- Claim C3 as amended: the falling-edge wait does not time out when a
falling-edge capture event is latched within the iteration budget and the
live counter - measured from the cycle-start counter reset, not from the
rising-edge capture - has not exceeded 30000 ticks at any earlier poll; the
cycle then returns the converted distance, not the 0xFFFF error value. -/
theorem measure_falling_within_cycle_bound (s : TimerState) (env : Env)
    (i j : Nat)
    (hr : waitLoop false env.rising.event env.rising.cnt 60000 50000 0 = some i)
    (hj : j < 50000) (hev : env.falling.event j = true)
    (hcnt : ∀ k, k < j → env.falling.cnt k % U32 ≤ 30000)
    (hs : env.rising.ccr2 ≤ 0xFFFF) (he : env.falling.ccr2 ≤ 0xFFFF) :
    (measureSt s env).fst =
      distance_cm (pulse_width env.rising.ccr2 env.falling.ccr2) ∧
    (measureSt s env).fst ≠ 0xFFFF := by
  obtain ⟨m, hm⟩ :=
    waitLoop_some_of_event env.falling.event env.falling.cnt 30000 50000 0 j hj
      (by simpa using hev) (fun k hk => by simpa using hcnt k hk)
  have hfst := measureSt_fst_of_success s env i m hr hm
  have hmr : env.rising.ccr2 % U32 = env.rising.ccr2 :=
    Nat.mod_eq_of_lt (by unfold U32; omega)
  have hmf : env.falling.ccr2 % U32 = env.falling.ccr2 :=
    Nat.mod_eq_of_lt (by unfold U32; omega)
  rw [hmr, hmf] at hfst
  refine ⟨hfst, ?_⟩
  rw [hfst]
  have hd := distance_cm_le _ (pulse_width_le _ _ hs he)
  omega

/-- Witness for the amended C3: both edges captured at once, well inside the
counter bound. -/
theorem measure_falling_within_cycle_bound_witness :
    (measureSt st0 envOk).fst =
      distance_cm (pulse_width envOk.rising.ccr2 envOk.falling.ccr2) ∧
    (measureSt st0 envOk).fst ≠ 0xFFFF :=
  measure_falling_within_cycle_bound st0 envOk 0 0 rfl (by decide) rfl
    (fun k hk => absurd hk (Nat.not_lt_zero k)) (by decide) (by decide)

/-- Claim C6: every successful cycle returns exactly
`(pulse_width * 343) / 4000` for the wraparound-corrected pulse width of its
two latched capture values. -/
theorem measure_success_distance (s : TimerState) (env : Env) (i j : Nat)
    (h1 : waitLoop false env.rising.event env.rising.cnt 60000 50000 0 = some i)
    (h2 : waitLoop false env.falling.event env.falling.cnt 30000 50000 0 = some j)
    (hs : env.rising.ccr2 ≤ 0xFFFF) (he : env.falling.ccr2 ≤ 0xFFFF) :
    (measureSt s env).fst =
      pulse_width env.rising.ccr2 env.falling.ccr2 * 343 / 4000 := by
  have hfst := measureSt_fst_of_success s env i j h1 h2
  have hmr : env.rising.ccr2 % U32 = env.rising.ccr2 :=
    Nat.mod_eq_of_lt (by unfold U32; omega)
  have hmf : env.falling.ccr2 % U32 = env.falling.ccr2 :=
    Nat.mod_eq_of_lt (by unfold U32; omega)
  rw [hmr, hmf] at hfst
  rw [hfst]
  exact distance_cm_eq _ (pulse_width_le _ _ hs he)

/-- Witness for C6 at the spec's worked example: captures 100 and 588 give
pulse width 488 and distance 41 cm. -/
theorem measure_success_distance_witness : (measureSt st0 envOk).fst = 41 := by
  have h := measure_success_distance st0 envOk 0 0 rfl rfl (by decide) (by decide)
  rw [h]
  decide

/-- Claim C8: for capture values in the counter range, the intermediate
product `pulse_width * 343` is at most 22478505, which is below 2^32 (no
32-bit overflow), the returned distance is at most 5620, and in particular a
successful return value never collides with the 0xFFFF error sentinel. -/
theorem measure_success_below_sentinel (s : TimerState) (env : Env) (i j : Nat)
    (h1 : waitLoop false env.rising.event env.rising.cnt 60000 50000 0 = some i)
    (h2 : waitLoop false env.falling.event env.falling.cnt 30000 50000 0 = some j)
    (hs : env.rising.ccr2 ≤ 0xFFFF) (he : env.falling.ccr2 ≤ 0xFFFF) :
    pulse_width env.rising.ccr2 env.falling.ccr2 * 343 ≤ 22478505 ∧
    22478505 < 2 ^ 32 ∧
    (measureSt s env).fst ≤ 5620 ∧
    (measureSt s env).fst ≠ 0xFFFF := by
  have hpw := pulse_width_le _ _ hs he
  have hfst := measureSt_fst_of_success s env i j h1 h2
  have hmr : env.rising.ccr2 % U32 = env.rising.ccr2 :=
    Nat.mod_eq_of_lt (by unfold U32; omega)
  have hmf : env.falling.ccr2 % U32 = env.falling.ccr2 :=
    Nat.mod_eq_of_lt (by unfold U32; omega)
  rw [hmr, hmf] at hfst
  have hd := distance_cm_le _ hpw
  refine ⟨?_, by norm_num, ?_, ?_⟩
  · have := Nat.mul_le_mul_right 343 hpw
    omega
  · rw [hfst]; omega
  · rw [hfst]; omega

/-- Witness for C8 at the spec's worked example traces. -/
theorem measure_success_below_sentinel_witness :
    pulse_width envOk.rising.ccr2 envOk.falling.ccr2 * 343 ≤ 22478505 ∧
    22478505 < 2 ^ 32 ∧
    (measureSt st0 envOk).fst ≤ 5620 ∧
    (measureSt st0 envOk).fst ≠ 0xFFFF :=
  measure_success_below_sentinel st0 envOk 0 0 rfl rfl (by decide) (by decide)

end HCSR04
